import Mathlib

/-!
Verification of the Shopcore plugin manager (`src/core/plugins/manager.ts`),
cart store (`src/core/cart/context.tsx`, `src/core/cart/utils.ts`) and
configuration validation (`src/core/config/defaults.ts`).

Modelling conventions for the shallow embedding:
* A hook that may throw is a function into `Except String` (the string is the
  JS `Error` message).  A `try/catch` around a hook call is a `match` on that
  `Except`.
* JS `React.ReactNode` values are modelled by `RNode`: they may be nullish
  (`null`/`undefined`), a boolean, a number, a string, or an element.  JS
  truthiness of such a value is `RNode.truthy`.
* The TS `Map` keyed by plugin id with insertion order is a `List` of plugins
  in registration order.
* Optional record sections (`config?.behavior?.x`) become `Option` fields with
  `Option.bind` for the optional chaining; both "absent" and
  "present but undefined" collapse to `none`, exactly as `=== undefined`
  checks and default parameters treat them.
* JS numbers are modelled as `Int` (quantities) and `Rat` (prices and tax
  rates); the decimal tax rate `0.2` of the spec scenario is the rational
  `1/5`.
* Purely observational callbacks (logging, `onCartUpdate`, storage
  persistence) do not influence any state the claims mention and are not part
  of the state model.
-/

namespace Shopcore

/-- A JS renderable value (`React.ReactNode`): nullish (`null`/`undefined`),
a boolean, a number, a string, or a proper element. -/
inductive RNode where
  | nullish : RNode
  | bool : Bool → RNode
  | num : Int → RNode
  | str : String → RNode
  | elem : String → RNode
deriving DecidableEq, Repr

/-- JS truthiness of a renderable value: `null`, `undefined`, `false`, `0`
and `""` are falsy, everything else is truthy.  This is the `if (element)` /
`if (result)` test of the manager source. -/
def RNode.truthy : RNode → Bool
  | .nullish => false
  | .bool b => b
  | .num n => n != 0
  | .str s => s != ""
  | .elem _ => true

/-- Non-nullish test: the value is neither `null` nor `undefined`.  This is
the filter the spec's words describe ("non-null/non-undefined"). -/
def RNode.nonNullish : RNode → Bool
  | .nullish => false
  | _ => true

/-- A Shopcore plugin (`ShopcorePlugin` of `src/core/plugins/types.ts`),
restricted to the hooks the dispatcher operations under scrutiny consult:
`hooks.data.onProductLoad`, `hooks.ui.beforeRender[componentName]`,
`hooks.ui.replaceComponent[componentName]` and `hooks.lifecycle.onMount`.
`α` is the product type, `Props` the component-props type and `Comp` the
type of the default component handed to `replaceComponent`.  The `onMount`
field records the outcome the mount hook would have when invoked (absent
hook = `none`). -/
structure ShopcorePlugin (α Props Comp : Type) where
  id : String
  onProductLoad : Option (α → Except String α)
  beforeRender : String → Option (Props → Except String RNode)
  replaceComponent : String → Option (Comp → Props → Except String RNode)
  onMount : Option (Except String Unit)

/-- The plugin manager state (`PluginManager` of
`src/core/plugins/manager.ts`): the insertion-ordered plugin map as a list,
and the `config`/`theme`/`initialized` fields reduced to their presence,
which is all `register` consults (`this.initialized && this.config &&
this.theme`). -/
structure PluginManager (α Props Comp : Type) where
  plugins : List (ShopcorePlugin α Props Comp)
  hasConfig : Bool
  hasTheme : Bool
  inited : Bool

/-- Result of `PluginManager.register`: the thrown error if any, the manager
state after the call (the TS method mutates `this`; a throw happens before
any mutation), and the ids of plugins whose `onMount` hook was invoked. -/
structure RegisterResult (α Props Comp : Type) where
  error : Option String
  manager : PluginManager α Props Comp
  mounted : List String

variable {α Props Comp : Type}

/-- `PluginManager.register` (manager.ts lines 30–45): reject a falsy id,
reject a duplicate id, otherwise append and — when already initialized with a
config and theme — immediately run the new plugin's mount hook
(`initializePlugin` invokes `onMount` when present). -/
def PluginManager.register (m : PluginManager α Props Comp)
    (plugin : ShopcorePlugin α Props Comp) : RegisterResult α Props Comp :=
  if plugin.id = "" then
    { error := some "Plugin must have an ID", manager := m, mounted := [] }
  else if m.plugins.any (fun q => q.id == plugin.id) then
    { error := some ("Plugin with ID \"" ++ plugin.id ++ "\" is already registered"),
      manager := m, mounted := [] }
  else
    { error := none
      manager := { m with plugins := m.plugins ++ [plugin] }
      mounted :=
        if m.inited && m.hasConfig && m.hasTheme && plugin.onMount.isSome then
          [plugin.id]
        else [] }

/-- One step of the product pipeline: the loop body of `applyProductHook`
(manager.ts lines 123–131).  If the plugin has an `onProductLoad` hook, call
it inside `try/catch`: a thrown error keeps the pre-call value. -/
def productHookStep (plugin : ShopcorePlugin α Props Comp) (product : α) : α :=
  match plugin.onProductLoad with
  | some hook =>
    match hook product with
    | .ok v => v
    | .error _ => product
  | none => product

/-- `PluginManager.applyProductHook` (manager.ts lines 120–134): fold the
loop body over the plugins in registration order, starting from the input
product (the initial `{ ...product }` spread is the identity under value
semantics). -/
def PluginManager.applyProductHook (m : PluginManager α Props Comp) (product : α) : α :=
  m.plugins.foldl (fun modifiedProduct plugin => productHookStep plugin modifiedProduct) product

/-- The spec's words for claim C1: the sequential left-to-right composition
of each extension's `onProductLoad` in registration order, where a step whose
hook throws passes the working value through unchanged. -/
def specProductPipeline : List (ShopcorePlugin α Props Comp) → α → α
  | [], product => product
  | plugin :: rest, product => specProductPipeline rest (productHookStep plugin product)

lemma foldl_productHookStep_eq_pipeline (ps : List (ShopcorePlugin α Props Comp)) (x : α) :
    ps.foldl (fun modifiedProduct plugin => productHookStep plugin modifiedProduct) x =
      specProductPipeline ps x := by
  induction ps generalizing x with
  | nil => rfl
  | cons p rest ih => simpa [specProductPipeline] using ih (productHookStep p x)

/-- Claim C1: for every product value and every sequence of registered
extensions, `applyProductHook` returns the left-to-right composition, in
registration order, of the `onProductLoad` hooks of the extensions that
implement one; a hook invocation that throws is skipped and the working value
passes to the next extension unchanged. -/
theorem applyProductHook_is_spec_pipeline (m : PluginManager α Props Comp) (product : α) :
    m.applyProductHook product = specProductPipeline m.plugins product :=
  foldl_productHookStep_eq_pipeline m.plugins product

/-- Claim C3: registering a plugin whose (non-empty) id is already registered
reports the duplicate-id error, leaves the manager state — in particular the
plugin list, so the originally registered plugin for that id — unchanged, and
invokes no mount hook. -/
theorem register_duplicate_id (m : PluginManager α Props Comp)
    (plugin : ShopcorePlugin α Props Comp)
    (hid : plugin.id ≠ "")
    (hdup : m.plugins.any (fun q => q.id == plugin.id) = true) :
    (m.register plugin).error =
        some ("Plugin with ID \"" ++ plugin.id ++ "\" is already registered") ∧
      (m.register plugin).manager = m ∧ (m.register plugin).mounted = [] := by
  simp [PluginManager.register, hid, hdup]

/-- A concrete plugin with id `"a"` and no hooks. -/
def plainPluginA : ShopcorePlugin Unit Unit Unit :=
  { id := "a", onProductLoad := none, beforeRender := fun _ => none,
    replaceComponent := fun _ => none, onMount := none }

/-- A manager that already holds `plainPluginA`. -/
def managerWithA : PluginManager Unit Unit Unit :=
  { plugins := [plainPluginA], hasConfig := false, hasTheme := false, inited := false }

/-- Witness for claim C3 at a concrete registry: re-registering id `"a"`. -/
theorem register_duplicate_id_witness :
    (managerWithA.register plainPluginA).error =
        some ("Plugin with ID \"" ++ plainPluginA.id ++ "\" is already registered") ∧
      (managerWithA.register plainPluginA).manager = managerWithA ∧
      (managerWithA.register plainPluginA).mounted = [] :=
  register_duplicate_id managerWithA plainPluginA (by decide) (by decide)

/-- First `some` produced by `f` along a list: the early-stopping search of
`Array.prototype.some` in the source. -/
def firstSome {β γ : Type} (f : β → Option γ) : List β → Option γ
  | [] => none
  | x :: xs =>
    match f x with
    | some r => some r
    | none => firstSome f xs

lemma firstSome_append {β γ : Type} (f : β → Option γ) (l1 l2 : List β) :
    firstSome f (l1 ++ l2) =
      match firstSome f l1 with
      | some r => some r
      | none => firstSome f l2 := by
  induction l1 with
  | nil => simp [firstSome]
  | cons x xs ih => cases h : f x <;> simp [firstSome, h, ih]

/-- Evaluate one plugin's `beforeRender[componentName]` hook at `props` under
`try/catch`, keeping the result only when it passes the filter `keep`:
`none` when the hook is missing, throws, or its result is filtered out. -/
def beforeRenderEval (keep : RNode → Bool) (componentName : String) (props : Props)
    (plugin : ShopcorePlugin α Props Comp) : Option RNode :=
  match plugin.beforeRender componentName with
  | some hook =>
    match hook props with
    | .ok element => if keep element then some element else none
    | .error _ => none
  | none => none

/-- Loop body of `applyBeforeRenderHooks` (manager.ts lines 208–222): call the
matching hook inside `try/catch` and push the returned element when it is
truthy (`if (element)`). -/
def beforeRenderBody (componentName : String) (props : Props)
    (elements : List RNode) (plugin : ShopcorePlugin α Props Comp) : List RNode :=
  match plugin.beforeRender componentName with
  | some hook =>
    match hook props with
    | .ok element => if element.truthy then elements ++ [element] else elements
    | .error _ => elements
  | none => elements

/-- `PluginManager.applyBeforeRenderHooks` (manager.ts lines 205–225): fold
the loop body over the plugins in registration order, starting from the empty
element list. -/
def PluginManager.applyBeforeRenderHooks (m : PluginManager α Props Comp)
    (componentName : String) (props : Props) : List RNode :=
  m.plugins.foldl (beforeRenderBody componentName props) []

/-- The spec's words for the before-render collection: iterate extensions in
registration order and collect, in that order, every hook return value that
passes the filter `keep`; a hook that is missing, throws, or is filtered out
contributes nothing and never stops the collection. -/
def collectBeforeRender (keep : RNode → Bool) (ps : List (ShopcorePlugin α Props Comp))
    (componentName : String) (props : Props) : List RNode :=
  ps.filterMap (beforeRenderEval keep componentName props)

lemma beforeRenderBody_eq_eval (componentName : String) (props : Props)
    (elements : List RNode) (plugin : ShopcorePlugin α Props Comp) :
    beforeRenderBody componentName props elements plugin =
      match beforeRenderEval RNode.truthy componentName props plugin with
      | some element => elements ++ [element]
      | none => elements := by
  cases h : plugin.beforeRender componentName with
  | none => simp [beforeRenderBody, beforeRenderEval, h]
  | some hook =>
    cases h2 : hook props with
    | error e => simp [beforeRenderBody, beforeRenderEval, h, h2]
    | ok element =>
      by_cases ht : element.truthy <;>
        simp [beforeRenderBody, beforeRenderEval, h, h2, ht]

lemma foldl_beforeRenderBody (componentName : String) (props : Props)
    (ps : List (ShopcorePlugin α Props Comp)) (acc : List RNode) :
    ps.foldl (beforeRenderBody componentName props) acc =
      acc ++ collectBeforeRender RNode.truthy ps componentName props := by
  induction ps generalizing acc with
  | nil => simp [collectBeforeRender]
  | cons p rest ih =>
    rw [List.foldl_cons, ih, beforeRenderBody_eq_eval]
    cases h : beforeRenderEval RNode.truthy componentName props p <;>
      simp [collectBeforeRender, List.filterMap_cons, h]

/-- Claim C8 (amended): `applyBeforeRenderHooks` returns, in registration
order, every truthy value returned by the matching `beforeRender` hooks —
a falsy but non-nullish return (`false`, `0`, `""`) is dropped as well — and
an extension whose hook throws contributes nothing without stopping the
collection for the other extensions. -/
theorem applyBeforeRenderHooks_collects_truthy (m : PluginManager α Props Comp)
    (componentName : String) (props : Props) :
    m.applyBeforeRenderHooks componentName props =
      collectBeforeRender RNode.truthy m.plugins componentName props := by
  simpa using foldl_beforeRenderBody componentName props m.plugins []

/-- A plugin whose `beforeRender` hook returns the number `0` for every
component: a valid, non-nullish `ReactNode` that is falsy in JS. -/
def zeroBeforeRenderPlugin : ShopcorePlugin Unit Unit Unit :=
  { id := "zero-node", onProductLoad := none,
    beforeRender := fun _ => some (fun _ => .ok (.num 0)),
    replaceComponent := fun _ => none, onMount := none }

/-- A manager holding only `zeroBeforeRenderPlugin`. -/
def zeroBeforeRenderManager : PluginManager Unit Unit Unit :=
  { plugins := [zeroBeforeRenderPlugin], hasConfig := false, hasTheme := false,
    inited := false }

/-- Counterexample to claim C8 as stated: the source drops the non-null,
non-undefined return value `0` (the code tests JS truthiness, not
non-nullishness), so the collected sequence is empty while the claim demands
the singleton `[0]`. -/
theorem applyBeforeRenderHooks_nonNullish_cex :
    zeroBeforeRenderManager.applyBeforeRenderHooks "ProductCard" () ≠
      collectBeforeRender RNode.nonNullish zeroBeforeRenderManager.plugins
        "ProductCard" () := by
  decide

/-- Evaluate one plugin's `replaceComponent[componentName]` hook under
`try/catch`, keeping the result only when it passes `keep`. -/
def replaceEval (keep : RNode → Bool) (componentName : String) (defaultComponent : Comp)
    (props : Props) (plugin : ShopcorePlugin α Props Comp) : Option RNode :=
  match plugin.replaceComponent componentName with
  | some hook =>
    match hook defaultComponent props with
    | .ok result => if keep result then some result else none
    | .error _ => none
  | none => none

/-- The `.reverse().some(...)` loop of `applyReplaceComponentHook`
(manager.ts lines 267–285), taken over an already reversed list: stop at the
first truthy result (`if (result)`); a missing hook, a thrown error, or a
falsy result moves on to the next plugin. -/
def replaceComponentSearch (componentName : String) (defaultComponent : Comp) (props : Props) :
    List (ShopcorePlugin α Props Comp) → Option RNode
  | [] => none
  | plugin :: rest =>
    match plugin.replaceComponent componentName with
    | some hook =>
      match hook defaultComponent props with
      | .ok result =>
        if result.truthy then some result
        else replaceComponentSearch componentName defaultComponent props rest
      | .error _ => replaceComponentSearch componentName defaultComponent props rest
    | none => replaceComponentSearch componentName defaultComponent props rest

/-- `PluginManager.applyReplaceComponentHook` (manager.ts lines 259–288):
run the early-stopping search over the plugins in reverse registration
order; `none` models the `null` return ("no replacement"). -/
def PluginManager.applyReplaceComponentHook (m : PluginManager α Props Comp)
    (componentName : String) (defaultComponent : Comp) (props : Props) : Option RNode :=
  replaceComponentSearch componentName defaultComponent props m.plugins.reverse

/-- The spec's "last-registered wins" formulation: fold over the plugins in
registration order, keeping the result of the last one whose hook yields a
value passing `keep`. -/
def lastReplacement (keep : RNode → Bool) (ps : List (ShopcorePlugin α Props Comp))
    (componentName : String) (defaultComponent : Comp) (props : Props) : Option RNode :=
  ps.foldl
    (fun acc plugin =>
      match replaceEval keep componentName defaultComponent props plugin with
      | some result => some result
      | none => acc)
    none

/-- Claim C2's words, literally: evaluate the matching hooks in reverse
registration order and return the first non-null result; `none` if no
extension returns one. -/
def claimedReplaceNonNull (ps : List (ShopcorePlugin α Props Comp))
    (componentName : String) (defaultComponent : Comp) (props : Props) : Option RNode :=
  firstSome (replaceEval RNode.nonNullish componentName defaultComponent props) ps.reverse

lemma replaceComponentSearch_eq_firstSome (componentName : String) (defaultComponent : Comp)
    (props : Props) (ps : List (ShopcorePlugin α Props Comp)) :
    replaceComponentSearch componentName defaultComponent props ps =
      firstSome (replaceEval RNode.truthy componentName defaultComponent props) ps := by
  induction ps with
  | nil => rfl
  | cons p rest ih =>
    cases h : p.replaceComponent componentName with
    | none => simp [replaceComponentSearch, firstSome, replaceEval, h, ih]
    | some hook =>
      cases h2 : hook defaultComponent props with
      | error e => simp [replaceComponentSearch, firstSome, replaceEval, h, h2, ih]
      | ok result =>
        by_cases ht : result.truthy <;>
          simp [replaceComponentSearch, firstSome, replaceEval, h, h2, ht, ih]

lemma foldl_lastReplacement (keep : RNode → Bool) (componentName : String)
    (defaultComponent : Comp) (props : Props) (ps : List (ShopcorePlugin α Props Comp))
    (acc : Option RNode) :
    ps.foldl
        (fun acc plugin =>
          match replaceEval keep componentName defaultComponent props plugin with
          | some result => some result
          | none => acc)
        acc =
      match firstSome (replaceEval keep componentName defaultComponent props) ps.reverse with
      | some result => some result
      | none => acc := by
  induction ps generalizing acc with
  | nil => simp [firstSome]
  | cons p rest ih =>
    rw [List.foldl_cons, ih]
    rw [show (p :: rest).reverse = rest.reverse ++ [p] by simp]
    rw [firstSome_append]
    cases hrest : firstSome (replaceEval keep componentName defaultComponent props)
        rest.reverse with
    | some r => simp
    | none =>
      cases hp : replaceEval keep componentName defaultComponent props p <;>
        simp [firstSome, hp]

/-- Claim C2 (amended): `applyReplaceComponentHook` returns the replacement
of the last-registered extension whose matching hook yields a truthy result —
a non-null but falsy result (`false`, `0`, `""`) is passed over like `null` —
with throwing hooks skipped, and `none` ("no replacement") when no extension
yields a truthy result. -/
theorem applyReplaceComponentHook_last_truthy (m : PluginManager α Props Comp)
    (componentName : String) (defaultComponent : Comp) (props : Props) :
    m.applyReplaceComponentHook componentName defaultComponent props =
      lastReplacement RNode.truthy m.plugins componentName defaultComponent props := by
  rw [PluginManager.applyReplaceComponentHook,
    replaceComponentSearch_eq_firstSome, lastReplacement,
    foldl_lastReplacement]
  cases firstSome (replaceEval RNode.truthy componentName defaultComponent props)
      m.plugins.reverse <;> simp

/-- A plugin whose `replaceComponent` hook returns the number `0` for every
component: non-null, but falsy in JS. -/
def zeroReplacePlugin : ShopcorePlugin Unit Unit Unit :=
  { id := "zero-replace", onProductLoad := none, beforeRender := fun _ => none,
    replaceComponent := fun _ => some (fun _ _ => .ok (.num 0)), onMount := none }

/-- A manager holding only `zeroReplacePlugin`. -/
def zeroReplaceManager : PluginManager Unit Unit Unit :=
  { plugins := [zeroReplacePlugin], hasConfig := false, hasTheme := false,
    inited := false }

/-- Counterexample to claim C2 as stated: the source passes over the non-null
result `0` (the code tests JS truthiness, not nullity) and reports "no
replacement", while the claim demands that this first non-null result be
returned. -/
theorem applyReplaceComponentHook_nonNull_cex :
    zeroReplaceManager.applyReplaceComponentHook "CartItem" () () ≠
      claimedReplaceNonNull zeroReplaceManager.plugins "CartItem" () () := by
  decide

/-- A price snapshot (`BasePrice` of cart/types.ts, without the optional
`compareAt` the cart logic never reads). -/
structure Price where
  amount : Rat
  currency : String
deriving DecidableEq, Repr

/-- A product variant (`ShopCoreVariant`): id and price snapshot; the
optional `sku`/attribute payload plays no role in the cart logic. -/
structure ShopVariant where
  id : String
  price : Price
deriving DecidableEq, Repr

/-- A product (`ShopCoreProduct`): id, name and price snapshot. -/
structure ShopProduct where
  id : String
  name : String
  price : Price
deriving DecidableEq, Repr

/-- A cart line item (`CartItem` of cart/types.ts). -/
structure LineItem where
  id : String
  product : ShopProduct
  variant : Option ShopVariant
  quantity : Int
  price : Price
deriving DecidableEq, Repr

/-- The computed totals record (`CartState.totals`; the optional `shipping`
field is never written by the code modelled here). -/
structure Totals where
  subtotal : Rat
  tax : Option Rat
  total : Rat
  currency : String
deriving DecidableEq, Repr

/-- The cart state (`CartState`): item list, open flag, totals. -/
structure CartState where
  items : List LineItem
  isOpen : Bool
  totals : Totals
deriving DecidableEq, Repr

/-- `calculateCartTotals` (cart/utils.ts lines 13–33): subtotal by a
`reduce` of price×quantity, `tax = taxRate > 0 ? subtotal * taxRate : 0`,
`total = subtotal + tax`, the `tax` field stored as `tax || undefined`
(so a zero tax is stored as absent), and the currency taken from the first
item's (truthy) currency, else `"USD"`. -/
def calculateCartTotals (items : List LineItem) (taxRate : Rat) : Totals :=
  let subtotal := items.foldl (fun total item => total + item.price.amount * (item.quantity : Rat)) 0
  let tax := if taxRate > 0 then subtotal * taxRate else 0
  let total := subtotal + tax
  let currency :=
    match items.head? with
    | some item => if item.price.currency = "" then "USD" else item.price.currency
    | none => "USD"
  { subtotal := subtotal, tax := if tax = 0 then none else some tax,
    total := total, currency := currency }

/-- `areCartItemsEqual` (cart/utils.ts lines 38–49): same product id, and
either both variants present with the same id or both absent. -/
def areCartItemsEqual (item1 item2 : LineItem) : Bool :=
  if item1.product.id ≠ item2.product.id then false
  else
    match item1.variant, item2.variant with
    | some v1, some v2 => v1.id == v2.id
    | none, none => true
    | _, _ => false

/-- `createCartItem` (cart/utils.ts lines 54–66) with the generated id made
an explicit argument (the source draws it from `Date.now()` and
`Math.random()`); the price snapshot is `variant?.price || product.price`. -/
def createCartItem (newId : String) (product : ShopProduct) (quantity : Int)
    (variant : Option ShopVariant) : LineItem :=
  { id := newId, product := product, variant := variant, quantity := quantity,
    price :=
      match variant with
      | some v => v.price
      | none => product.price }

/-- `validateQuantity` (cart/utils.ts lines 71–73): `quantity >= min &&
quantity <= max` with parameter defaults `min = 1`, `max = Infinity`; an
absent argument (`undefined` at the call site) takes the default. -/
def validateQuantity (quantity : Int) (min max : Option Int) : Bool :=
  min.getD 1 ≤ quantity &&
    match max with
    | some m => quantity ≤ m
    | none => true

/-- Loop body of `mergeCartItems`: bump the quantity of the first entry that
`areCartItemsEqual`-matches `item`, else push a copy at the end. -/
def mergeInto : List LineItem → LineItem → List LineItem
  | [], item => [item]
  | m :: rest, item =>
    if areCartItemsEqual m item then
      { m with quantity := m.quantity + item.quantity } :: rest
    else
      m :: mergeInto rest item

/-- `mergeCartItems` (cart/utils.ts lines 78–92): fold every item into the
accumulated merged list. -/
def mergeCartItems (items : List LineItem) : List LineItem :=
  items.foldl mergeInto []

/-- The `behavior` section of `CartConfig` (cart/types.ts); every field is
individually optional.  `allowNegativeStock` is declared but never read by
the code modelled here. -/
structure CartBehavior where
  maxQuantityPerItem : Option Int
  minQuantityPerItem : Option Int
  allowNegativeStock : Option Bool
  mergeSameItems : Option Bool
deriving DecidableEq, Repr

/-- The `events` section of `CartConfig`, restricted to the callbacks the
modelled actions consult.  A callback is a function into `Except String`
(it may throw); a `Promise<boolean | void>` result is an `Option Bool`
(only `=== false` cancels).  The notification-only callbacks
(`onCartUpdate`, `onError`) observe but never alter cart state. -/
structure CartEvents where
  onBeforeAddItem :
    Option (ShopProduct → Option ShopVariant → Option Int → Except String (Option Bool))
  onAfterAddItem : Option (LineItem → Except String Unit)
  onBeforeUpdateQuantity : Option (String → Int → Int → Except String (Option Bool))

/-- The cart configuration (`CartConfig`), restricted to the sections the
modelled actions read: `behavior` and `events` (the `storage` and `pricing`
sections only drive the persistence/totals effects outside these actions). -/
structure CartConfig where
  behavior : Option CartBehavior
  events : Option CartEvents

/-- `config?.behavior?.minQuantityPerItem`. -/
def CartConfig.minQty (config : CartConfig) : Option Int :=
  config.behavior.bind (·.minQuantityPerItem)

/-- `config?.behavior?.maxQuantityPerItem`. -/
def CartConfig.maxQty (config : CartConfig) : Option Int :=
  config.behavior.bind (·.maxQuantityPerItem)

/-- Truthiness of `config?.behavior?.mergeSameItems`. -/
def CartConfig.mergeOn (config : CartConfig) : Bool :=
  config.behavior.bind (·.mergeSameItems) == some true

/-- JS truthiness of an optional number: `undefined` and `0` are falsy. -/
def truthyIntOpt : Option Int → Bool
  | some n => n != 0
  | none => false

/-- `options?.quantity || 1` (context.tsx line 153): an absent or zero
quantity is replaced by the default `1`; every other value — negative
included — passes through. -/
def resolveQuantity : Option Int → Int
  | some n => if n = 0 then 1 else n
  | none => 1

/-- Result of a cart action: the state after the call together with the
thrown error, if any (the reducer dispatches that already happened before a
throw are kept, exactly as in the source). -/
structure ActionResult where
  state : CartState
  error : Option String
deriving DecidableEq, Repr

/-- `await config?.events?.onBeforeAddItem?.(product, options)`: `ok none`
when the callback is absent or returns `void`. -/
def beforeAddResult (config : CartConfig) (product : ShopProduct)
    (variant : Option ShopVariant) (quantity : Option Int) : Except String (Option Bool) :=
  match config.events.bind (·.onBeforeAddItem) with
  | some callback => callback product variant quantity
  | none => .ok none

/-- `config?.events?.onAfterAddItem?.(newItem)`. -/
def afterAddResult (config : CartConfig) (item : LineItem) : Except String Unit :=
  match config.events.bind (·.onAfterAddItem) with
  | some callback => callback item
  | none => .ok ()

/-- `await config?.events?.onBeforeUpdateQuantity?.(itemId, quantity,
item.quantity)`. -/
def beforeUpdateResult (config : CartConfig) (itemId : String) (quantity currentQuantity : Int) :
    Except String (Option Bool) :=
  match config.events.bind (·.onBeforeUpdateQuantity) with
  | some callback => callback itemId quantity currentQuantity
  | none => .ok none

/-- `addItem` (context.tsx lines 141–184): before-add guard (an explicit
`false` makes the call a silent no-op, a throw aborts); `options?.quantity
|| 1`; quantity validation only when a truthy `maxQuantityPerItem` or
`minQuantityPerItem` is configured, throwing `"Invalid quantity"`; create
the line item and dispatch `ADD_ITEM`; when `mergeSameItems` is truthy,
dispatch `SET_ITEMS` with `mergeCartItems([...state.items, newItem])`;
finally the after-add notification (whose throw propagates after the
dispatches already happened). -/
def addItem (config : CartConfig) (state : CartState) (newId : String)
    (product : ShopProduct) (variant : Option ShopVariant) (quantityOpt : Option Int) :
    ActionResult :=
  match beforeAddResult config product variant quantityOpt with
  | .error e => { state := state, error := some e }
  | .ok canAdd =>
    if canAdd = some false then { state := state, error := none }
    else
      let quantity := resolveQuantity quantityOpt
      if (truthyIntOpt config.maxQty || truthyIntOpt config.minQty) &&
          !validateQuantity quantity config.minQty config.maxQty then
        { state := state, error := some "Invalid quantity" }
      else
        let newItem := createCartItem newId product quantity variant
        let items1 := state.items ++ [newItem]
        let items2 := if config.mergeOn then mergeCartItems items1 else items1
        let state1 := { state with items := items2 }
        match afterAddResult config newItem with
        | .error e => { state := state1, error := some e }
        | .ok _ => { state := state1, error := none }

/-- The `UPDATE_QUANTITY` reducer case (context.tsx lines 62–68). -/
def applyUpdateQuantity (state : CartState) (itemId : String) (quantity : Int) : CartState :=
  { state with
    items := state.items.map (fun item =>
      if item.id == itemId then { item with quantity := quantity } else item) }

/-- `updateQuantity` (context.tsx lines 198–226): find the item (throw
`"Item not found"` if absent); before-update guard (`false` cancels
silently, a throw aborts); unless `options?.validate === false`, validate
against the configured bounds, throwing `"Invalid quantity"`; then dispatch
`UPDATE_QUANTITY`. -/
def updateQuantity (config : CartConfig) (state : CartState) (itemId : String)
    (quantity : Int) (validate : Option Bool) : ActionResult :=
  match state.items.find? (fun item => item.id == itemId) with
  | none => { state := state, error := some "Item not found" }
  | some item =>
    match beforeUpdateResult config itemId quantity item.quantity with
    | .error e => { state := state, error := some e }
    | .ok canUpdate =>
      if canUpdate = some false then { state := state, error := none }
      else
        if validate ≠ some false then
          if validateQuantity quantity config.minQty config.maxQty then
            { state := applyUpdateQuantity state itemId quantity, error := none }
          else
            { state := state, error := some "Invalid quantity" }
        else
          { state := applyUpdateQuantity state itemId quantity, error := none }

/-- A cart configuration with neither behavior bounds nor event callbacks. -/
def emptyConfig : CartConfig := { behavior := none, events := none }

/-- A behavior section with only `minQuantityPerItem := 1` set. -/
def minOneBehavior : CartBehavior :=
  { maxQuantityPerItem := none, minQuantityPerItem := some 1,
    allowNegativeStock := none, mergeSameItems := none }

/-- A cart configuration with only `minQuantityPerItem := 1` set. -/
def minOneConfig : CartConfig :=
  { behavior := some minOneBehavior, events := none }

/-- A behavior section with merge-on-add enabled and no bounds. -/
def mergeOnBehavior : CartBehavior :=
  { maxQuantityPerItem := none, minQuantityPerItem := none,
    allowNegativeStock := none, mergeSameItems := some true }

/-- A cart configuration with merge-on-add enabled and no bounds. -/
def mergeOnConfig : CartConfig :=
  { behavior := some mergeOnBehavior, events := none }

/-- A behavior section with merge-on-add disabled and no bounds. -/
def mergeOffBehavior : CartBehavior :=
  { maxQuantityPerItem := none, minQuantityPerItem := none,
    allowNegativeStock := none, mergeSameItems := some false }

/-- A cart configuration with merge-on-add disabled and no bounds. -/
def mergeOffConfig : CartConfig :=
  { behavior := some mergeOffBehavior, events := none }

/-- A concrete product. -/
def demoProduct : ShopProduct :=
  { id := "p1", name := "Demo", price := { amount := 10, currency := "USD" } }

/-- A concrete totals record. -/
def demoTotals : Totals :=
  { subtotal := 0, tax := none, total := 0, currency := "USD" }

/-- The empty cart state. -/
def emptyCartState : CartState :=
  { items := [], isOpen := false, totals := demoTotals }

/-- A cart state holding one concrete line item. -/
def demoState : CartState :=
  { items := [createCartItem "item-1" demoProduct 2 none], isOpen := false,
    totals := demoTotals }

/-- Claim C5: `updateQuantity` with an item id that no line item carries
reports the item-not-found error and returns the cart state — item list,
totals and open flag — exactly as it was. -/
theorem updateQuantity_absent_id (config : CartConfig) (state : CartState)
    (itemId : String) (quantity : Int) (validate : Option Bool)
    (habs : ∀ item ∈ state.items, item.id ≠ itemId) :
    updateQuantity config state itemId quantity validate =
      { state := state, error := some "Item not found" } := by
  have hfind : state.items.find? (fun item => item.id == itemId) = none := by
    rw [List.find?_eq_none]
    intro item hmem
    simpa using habs item hmem
  simp [updateQuantity, hfind]

/-- Witness for claim C5 at a concrete cart state and absent id. -/
theorem updateQuantity_absent_id_witness :
    updateQuantity emptyConfig demoState "missing-id" 3 none =
      { state := demoState, error := some "Item not found" } :=
  updateQuantity_absent_id emptyConfig demoState "missing-id" 3 none (by decide)

/-- Counterexample to claim C4 as stated: with no bounds configured, the
requested quantity `0` is out of range for the claim's default bounds
(minimum 1), yet `addItem` does not fail — the falsy quantity is replaced by
`1` and a line item is added. -/
theorem addItem_quantity_zero_cex :
    validateQuantity 0 emptyConfig.minQty emptyConfig.maxQty = false ∧
      addItem emptyConfig emptyCartState "item-1" demoProduct none (some 0) =
        { state := { emptyCartState with
            items := [createCartItem "item-1" demoProduct 1 none] },
          error := none } := by
  constructor
  · decide
  · rfl

/-- Claim C4 (amended): when a truthy min or max quantity bound is configured
and the before-add guard is absent, a requested quantity that — after the
falsy-to-`1` replacement — violates the bounds (default minimum 1, unbounded
maximum for the unset one) makes `addItem` fail with the invalid-quantity
error, leaving the cart state unchanged, so no line item is added. -/
theorem addItem_invalid_quantity (config : CartConfig) (state : CartState)
    (newId : String) (product : ShopProduct) (variant : Option ShopVariant)
    (quantityOpt : Option Int)
    (hguard : config.events.bind (·.onBeforeAddItem) = none)
    (hbounds : (truthyIntOpt config.maxQty || truthyIntOpt config.minQty) = true)
    (hinvalid : validateQuantity (resolveQuantity quantityOpt) config.minQty config.maxQty
      = false) :
    addItem config state newId product variant quantityOpt =
      { state := state, error := some "Invalid quantity" } := by
  simp [addItem, beforeAddResult, hguard, hbounds, hinvalid]

/-- Witness for the amended claim C4: with minimum 1 configured, requesting
quantity `-1` fails with the invalid-quantity error. -/
theorem addItem_invalid_quantity_witness :
    addItem minOneConfig emptyCartState "item-1" demoProduct none (some (-1)) =
      { state := emptyCartState, error := some "Invalid quantity" } :=
  addItem_invalid_quantity minOneConfig emptyCartState "item-1" demoProduct none
    (some (-1)) rfl (by decide) (by decide)

/-- Claim C6: starting from a cart with no items, two successive `addItem`
calls for the same product+variant pair with nonzero quantities succeed and,
with merge-on-add enabled, leave exactly one line item for that pair whose
quantity is the sum of the two requested quantities; with merge-on-add
disabled they leave two distinct line items with the individual
quantities. -/
theorem addItem_twice_merge (product : ShopProduct) (variant : Option ShopVariant)
    (q1 q2 : Int) (id1 id2 : String) (b : Bool) (t : Totals)
    (h1 : q1 ≠ 0) (h2 : q2 ≠ 0) :
    (addItem mergeOnConfig ⟨[], b, t⟩ id1 product variant (some q1)).error = none ∧
    addItem mergeOnConfig
        (addItem mergeOnConfig ⟨[], b, t⟩ id1 product variant (some q1)).state
        id2 product variant (some q2) =
      { state := ⟨[{ createCartItem id1 product q1 variant with quantity := q1 + q2 }], b, t⟩,
        error := none } ∧
    (addItem mergeOffConfig ⟨[], b, t⟩ id1 product variant (some q1)).error = none ∧
    addItem mergeOffConfig
        (addItem mergeOffConfig ⟨[], b, t⟩ id1 product variant (some q1)).state
        id2 product variant (some q2) =
      { state := ⟨[createCartItem id1 product q1 variant,
                   createCartItem id2 product q2 variant], b, t⟩,
        error := none } := by
  cases variant with
  | none =>
    simp [addItem, beforeAddResult, afterAddResult, mergeOnConfig, mergeOffConfig,
      mergeOnBehavior, mergeOffBehavior, CartConfig.mergeOn, CartConfig.minQty,
      CartConfig.maxQty, truthyIntOpt, resolveQuantity, h1, h2, mergeCartItems,
      mergeInto, areCartItemsEqual, createCartItem]
  | some v =>
    simp [addItem, beforeAddResult, afterAddResult, mergeOnConfig, mergeOffConfig,
      mergeOnBehavior, mergeOffBehavior, CartConfig.mergeOn, CartConfig.minQty,
      CartConfig.maxQty, truthyIntOpt, resolveQuantity, h1, h2, mergeCartItems,
      mergeInto, areCartItemsEqual, createCartItem]

/-- Witness for claim C6 at concrete quantities 2 and 3. -/
theorem addItem_twice_merge_witness :
    (addItem mergeOnConfig ⟨[], false, demoTotals⟩ "i1" demoProduct none (some 2)).error
        = none ∧
    addItem mergeOnConfig
        (addItem mergeOnConfig ⟨[], false, demoTotals⟩ "i1" demoProduct none (some 2)).state
        "i2" demoProduct none (some 3) =
      { state := ⟨[{ createCartItem "i1" demoProduct 2 none with quantity := 2 + 3 }],
          false, demoTotals⟩,
        error := none } ∧
    (addItem mergeOffConfig ⟨[], false, demoTotals⟩ "i1" demoProduct none (some 2)).error
        = none ∧
    addItem mergeOffConfig
        (addItem mergeOffConfig ⟨[], false, demoTotals⟩ "i1" demoProduct none (some 2)).state
        "i2" demoProduct none (some 3) =
      { state := ⟨[createCartItem "i1" demoProduct 2 none,
                   createCartItem "i2" demoProduct 3 none], false, demoTotals⟩,
        error := none } :=
  addItem_twice_merge demoProduct none 2 3 "i1" "i2" false demoTotals
    (by decide) (by decide)

/-- Claim C10: with no before-add guard and no quantity bounds configured,
an explicit requested quantity of `0` does not fail: the falsy quantity is
silently replaced by the default `1` before validation and item creation,
and a line item with quantity `1` is appended. -/
theorem addItem_zero_quantity_defaults_to_one (state : CartState) (newId : String)
    (product : ShopProduct) (variant : Option ShopVariant) :
    addItem emptyConfig state newId product variant (some 0) =
      { state := { state with
          items := state.items ++ [createCartItem newId product 1 variant] },
        error := none } := by
  simp [addItem, beforeAddResult, afterAddResult, emptyConfig, CartConfig.mergeOn,
    CartConfig.minQty, CartConfig.maxQty, truthyIntOpt, resolveQuantity]

/-- The spec's subtotal: the sum over line items of unit price × quantity. -/
def subtotalOf (items : List LineItem) : Rat :=
  (items.map (fun item => item.price.amount * (item.quantity : Rat))).sum

lemma foldl_price_sum (items : List LineItem) (a : Rat) :
    items.foldl (fun total item => total + item.price.amount * (item.quantity : Rat)) a =
      a + subtotalOf items := by
  induction items generalizing a with
  | nil => simp [subtotalOf]
  | cons x xs ih => simp [subtotalOf, ih, List.map_cons]; ring

/-- The two line items of the spec's end-to-end totals scenario:
`{price: 10, qty: 2}` and `{price: 5, qty: 1}` in USD. -/
def demoTotalsItems : List LineItem :=
  [{ id := "a", product := demoProduct, variant := none, quantity := 2,
     price := { amount := 10, currency := "USD" } },
   { id := "b", product := demoProduct, variant := none, quantity := 1,
     price := { amount := 5, currency := "USD" } }]

/-- Counterexample to claim C7 as stated: with the positive tax rate `1/5`
(= 0.2) enabled but an empty item list, the stored tax is absent
(`tax || undefined` turns the computed `0` into `undefined`) instead of
being equal to subtotal × rate as the claim demands. -/
theorem calculateCartTotals_zero_subtotal_cex :
    (0 : Rat) < 1/5 ∧
      (calculateCartTotals [] (1/5)).tax ≠
        some ((calculateCartTotals [] (1/5)).subtotal * (1/5)) := by
  constructor
  · norm_num
  · norm_num [calculateCartTotals]
    simp

/-- Claim C7 (amended): the default totals computation returns subtotal
= Σ price × quantity; tax = subtotal × rate when the rate is positive and
that product is nonzero, and an absent tax field otherwise (the source stores
`tax || undefined`, so a zero tax is absent as well); total = subtotal plus
the computed tax.  In particular the spec scenario: items
`[{price:10, qty:2}, {price:5, qty:1}]` give subtotal 25 and total 25 with
tax disabled, and tax 5 and total 30 with tax rate `1/5` (= 0.2). -/
theorem calculateCartTotals_spec (items : List LineItem) (taxRate : Rat) :
    (calculateCartTotals items taxRate).subtotal = subtotalOf items ∧
    (calculateCartTotals items taxRate).tax =
      (if taxRate > 0 ∧ subtotalOf items * taxRate ≠ 0 then
        some (subtotalOf items * taxRate)
      else none) ∧
    (calculateCartTotals items taxRate).total =
      subtotalOf items + (if taxRate > 0 then subtotalOf items * taxRate else 0) ∧
    calculateCartTotals demoTotalsItems 0 =
      { subtotal := 25, tax := none, total := 25, currency := "USD" } ∧
    calculateCartTotals demoTotalsItems (1/5) =
      { subtotal := 25, tax := some 5, total := 30, currency := "USD" } := by
  refine ⟨?_, ?_, ?_, ?_, ?_⟩
  rotate_left 3
  · norm_num [calculateCartTotals, demoTotalsItems, demoProduct, Totals.mk.injEq]
  · norm_num [calculateCartTotals, demoTotalsItems, demoProduct, Totals.mk.injEq]
  · simp [calculateCartTotals, foldl_price_sum]
  · by_cases hrate : taxRate > 0
    · by_cases hz : subtotalOf items * taxRate = 0 <;>
        simp [calculateCartTotals, foldl_price_sum, hrate, hz]
    · simp [calculateCartTotals, foldl_price_sum, hrate]
  · by_cases hrate : taxRate > 0 <;>
      simp [calculateCartTotals, foldl_price_sum, hrate]

/-- The `theme` section of the Shopcore configuration (`ThemeConfig`),
restricted to the keys `defaultConfig` populates; every field optional. -/
structure ThemeSection where
  colorScheme : Option String
  primaryColor : Option String
  radius : Option Int
deriving DecidableEq, Repr

/-- The `cacheSettings` section (`CacheSettings`). -/
structure CacheSection where
  maxEntries : Option Int
  expirationTime : Option Int
deriving DecidableEq, Repr

/-- The `mock` section (`MockConfig`), restricted to its scalar keys. -/
structure MockSection where
  enabled : Option Bool
  delay : Option Int
deriving DecidableEq, Repr

/-- A (partial) Shopcore configuration (`Partial<ShopcoreConfig>` of
`src/core/types/config.ts`, restricted to the scalar fields `defaultConfig`
and `validateConfig` handle): every field is an `Option`, `none` standing
for an absent or `undefined` value — exactly the distinction the
`=== undefined` checks observe. -/
structure ShopcoreConfig where
  mode : Option String
  debug : Option Bool
  enableCart : Option Bool
  enableWishlist : Option Bool
  enableCheckout : Option Bool
  enableReviews : Option Bool
  enableUpselling : Option Bool
  defaultCurrency : Option String
  supportedCurrencies : Option (List String)
  currencyFormat : Option String
  fallbackCurrency : Option String
  defaultLocale : Option String
  supportedLocales : Option (List String)
  enableTranslations : Option Bool
  theme : Option ThemeSection
  enableLazyLoading : Option Bool
  enableSSR : Option Bool
  cacheStrategy : Option String
  cacheSettings : Option CacheSection
  mock : Option MockSection
deriving DecidableEq, Repr

/-- The `theme` record of `defaultConfig` (defaults.ts lines 33–37). -/
def defaultThemeSection : ThemeSection :=
  { colorScheme := some "system", primaryColor := some "#0070f3", radius := some 4 }

/-- The `cacheSettings` record of `defaultConfig` (defaults.ts lines 43–46). -/
def defaultCacheSection : CacheSection :=
  { maxEntries := some 1000, expirationTime := some 3600000 }

/-- The `mock` record of `defaultConfig` (defaults.ts lines 49–51). -/
def defaultMockSection : MockSection :=
  { enabled := some false, delay := none }

/-- `defaultConfig` (defaults.ts lines 8–52): the documented defaults; the
required currency/locale fields are deliberately left unset there. -/
def defaultConfig : ShopcoreConfig :=
  { mode := some "development", debug := some false,
    enableCart := some true, enableWishlist := some false,
    enableCheckout := some true, enableReviews := some false,
    enableUpselling := some false,
    defaultCurrency := none, supportedCurrencies := none,
    currencyFormat := some "locale", fallbackCurrency := none,
    defaultLocale := none, supportedLocales := none,
    enableTranslations := some true,
    theme := some defaultThemeSection,
    enableLazyLoading := some true, enableSSR := some true,
    cacheStrategy := some "memory",
    cacheSettings := some defaultCacheSection,
    mock := some defaultMockSection }

/-- `requiredConfigFields` (defaults.ts lines 57–62). -/
def requiredConfigFields : List String :=
  ["mode", "defaultCurrency", "supportedCurrencies", "defaultLocale"]

/-- `config[field] !== undefined`, specialised to the field names the
required-field loop ranges over. -/
def fieldPresent (config : ShopcoreConfig) (field : String) : Bool :=
  if field = "mode" then config.mode.isSome
  else if field = "defaultCurrency" then config.defaultCurrency.isSome
  else if field = "supportedCurrencies" then config.supportedCurrencies.isSome
  else if field = "defaultLocale" then config.defaultLocale.isSome
  else true

/-- JS object-spread merge `{ ...defaults, ...user }` at one key: the user's
value when present, else the default's. -/
def mergeOpt {β : Type} (user deflt : Option β) : Option β :=
  match user with
  | some v => some v
  | none => deflt

/-- `{ ...defaultConfig.theme, ...config.theme }` (defaults.ts lines 84–87). -/
def mergeThemeSection (user : Option ThemeSection) : ThemeSection :=
  { colorScheme := mergeOpt (user.bind (·.colorScheme)) defaultThemeSection.colorScheme,
    primaryColor := mergeOpt (user.bind (·.primaryColor)) defaultThemeSection.primaryColor,
    radius := mergeOpt (user.bind (·.radius)) defaultThemeSection.radius }

/-- `{ ...defaultConfig.cacheSettings, ...config.cacheSettings }`
(defaults.ts lines 88–91). -/
def mergeCacheSection (user : Option CacheSection) : CacheSection :=
  { maxEntries := mergeOpt (user.bind (·.maxEntries)) defaultCacheSection.maxEntries,
    expirationTime := mergeOpt (user.bind (·.expirationTime)) defaultCacheSection.expirationTime }

/-- `{ ...defaultConfig.mock, ...config.mock }` (defaults.ts lines 92–95). -/
def mergeMockSection (user : Option MockSection) : MockSection :=
  { enabled := mergeOpt (user.bind (·.enabled)) defaultMockSection.enabled,
    delay := mergeOpt (user.bind (·.delay)) defaultMockSection.delay }

/-- The merge expression returned by `validateConfig` (defaults.ts lines
80–96): shallow spread of the user config over the defaults, with a one-level
deep merge for the `theme`, `cacheSettings` and `mock` sections. -/
def mergeConfigWithDefaults (config : ShopcoreConfig) : ShopcoreConfig :=
  { mode := mergeOpt config.mode defaultConfig.mode,
    debug := mergeOpt config.debug defaultConfig.debug,
    enableCart := mergeOpt config.enableCart defaultConfig.enableCart,
    enableWishlist := mergeOpt config.enableWishlist defaultConfig.enableWishlist,
    enableCheckout := mergeOpt config.enableCheckout defaultConfig.enableCheckout,
    enableReviews := mergeOpt config.enableReviews defaultConfig.enableReviews,
    enableUpselling := mergeOpt config.enableUpselling defaultConfig.enableUpselling,
    defaultCurrency := mergeOpt config.defaultCurrency defaultConfig.defaultCurrency,
    supportedCurrencies :=
      mergeOpt config.supportedCurrencies defaultConfig.supportedCurrencies,
    currencyFormat := mergeOpt config.currencyFormat defaultConfig.currencyFormat,
    fallbackCurrency := mergeOpt config.fallbackCurrency defaultConfig.fallbackCurrency,
    defaultLocale := mergeOpt config.defaultLocale defaultConfig.defaultLocale,
    supportedLocales := mergeOpt config.supportedLocales defaultConfig.supportedLocales,
    enableTranslations :=
      mergeOpt config.enableTranslations defaultConfig.enableTranslations,
    theme := some (mergeThemeSection config.theme),
    enableLazyLoading :=
      mergeOpt config.enableLazyLoading defaultConfig.enableLazyLoading,
    enableSSR := mergeOpt config.enableSSR defaultConfig.enableSSR,
    cacheStrategy := mergeOpt config.cacheStrategy defaultConfig.cacheStrategy,
    cacheSettings := some (mergeCacheSection config.cacheSettings),
    mock := some (mergeMockSection config.mock) }

/-- The first required field the loop of `validateConfig` finds missing, in
the order of `requiredConfigFields`. -/
def firstMissingField (config : ShopcoreConfig) : Option String :=
  requiredConfigFields.find? (fun field => !fieldPresent config field)

/-- `validateConfig` (defaults.ts lines 71–97): throw an error naming the
first missing required field; otherwise return the user config merged over
the documented defaults. -/
def validateConfig (config : ShopcoreConfig) : Except String ShopcoreConfig :=
  match firstMissingField config with
  | some field => .error ("Missing required configuration field: " ++ field)
  | none => .ok (mergeConfigWithDefaults config)

lemma firstMissingField_none_iff (config : ShopcoreConfig) :
    firstMissingField config = none ↔
      (config.mode.isSome ∧ config.defaultCurrency.isSome ∧
        config.supportedCurrencies.isSome ∧ config.defaultLocale.isSome) := by
  cases hm : config.mode <;> cases hdc : config.defaultCurrency <;>
    cases hsc : config.supportedCurrencies <;> cases hdl : config.defaultLocale <;>
    simp [firstMissingField, requiredConfigFields, fieldPresent, List.find?,
      hm, hdc, hsc, hdl]

lemma firstMissingField_some (config : ShopcoreConfig) (field : String)
    (h : firstMissingField config = some field) :
    field ∈ requiredConfigFields ∧ fieldPresent config field = false := by
  rw [firstMissingField] at h
  refine ⟨List.mem_of_find?_eq_some h, ?_⟩
  simpa using List.find?_some h

/-- Claim C9: `validateConfig` throws if and only if at least one of the four
required fields (`mode`, `defaultCurrency`, `supportedCurrencies`,
`defaultLocale`) is absent; every thrown error names a missing required
field; and when all four are present it returns the configuration merged
over the documented defaults. -/
theorem validateConfig_spec (config : ShopcoreConfig) :
    ((∃ e, validateConfig config = .error e) ↔
      (config.mode = none ∨ config.defaultCurrency = none ∨
        config.supportedCurrencies = none ∨ config.defaultLocale = none)) ∧
    (∀ e, validateConfig config = .error e →
      ∃ field, field ∈ requiredConfigFields ∧ fieldPresent config field = false ∧
        e = "Missing required configuration field: " ++ field) ∧
    ((config.mode ≠ none ∧ config.defaultCurrency ≠ none ∧
        config.supportedCurrencies ≠ none ∧ config.defaultLocale ≠ none) →
      validateConfig config = .ok (mergeConfigWithDefaults config)) := by
  cases hf : firstMissingField config with
  | none =>
    obtain ⟨ha, hb, hc, hd⟩ := (firstMissingField_none_iff config).mp hf
    rw [← Option.ne_none_iff_isSome] at ha hb hc hd
    refine ⟨?_, ?_, ?_⟩
    · simp [validateConfig, hf, ha, hb, hc, hd]
    · intro e he
      simp [validateConfig, hf] at he
    · intro _
      simp [validateConfig, hf]
  | some field =>
    obtain ⟨hmem, hpres⟩ := firstMissingField_some config field hf
    have hval : validateConfig config =
        .error ("Missing required configuration field: " ++ field) := by
      simp [validateConfig, hf]
    have hnone : config.mode = none ∨ config.defaultCurrency = none ∨
        config.supportedCurrencies = none ∨ config.defaultLocale = none := by
      simp [requiredConfigFields] at hmem
      rcases hmem with h | h | h | h <;> subst h
      · cases hcase : config.mode with
        | none => simp [hcase]
        | some v => simp [fieldPresent, hcase] at hpres
      · cases hcase : config.defaultCurrency with
        | none => simp [hcase]
        | some v => simp [fieldPresent, hcase] at hpres
      · cases hcase : config.supportedCurrencies with
        | none => simp [hcase]
        | some v => simp [fieldPresent, hcase] at hpres
      · cases hcase : config.defaultLocale with
        | none => simp [hcase]
        | some v => simp [fieldPresent, hcase] at hpres
    refine ⟨?_, ?_, ?_⟩
    · exact ⟨fun _ => hnone, fun _ => ⟨_, hval⟩⟩
    · intro e he
      rw [hval] at he
      exact ⟨field, hmem, hpres, by injection he.symm⟩
    · rintro ⟨ha, hb, hc, hd⟩
      rcases hnone with h | h | h | h
      · exact absurd h ha
      · exact absurd h hb
      · exact absurd h hc
      · exact absurd h hd

/-- A complete concrete user configuration for the witness. -/
def fullUserConfig : ShopcoreConfig :=
  { mode := some "production", debug := none,
    enableCart := none, enableWishlist := none, enableCheckout := none,
    enableReviews := none, enableUpselling := none,
    defaultCurrency := some "EUR", supportedCurrencies := some ["EUR", "USD"],
    currencyFormat := none, fallbackCurrency := none,
    defaultLocale := some "de-DE", supportedLocales := none,
    enableTranslations := none, theme := none,
    enableLazyLoading := none, enableSSR := none,
    cacheStrategy := none, cacheSettings := none, mock := none }

/-- Witness for claim C9 at a concrete configuration with all four required
fields present: validation succeeds with the merged configuration. -/
theorem validateConfig_spec_witness :
    validateConfig fullUserConfig = .ok (mergeConfigWithDefaults fullUserConfig) :=
  (validateConfig_spec fullUserConfig).2.2
    ⟨by decide, by decide, by decide, by decide⟩

end Shopcore
